import Mathlib

/-!
Shallow embedding of the TourOverlay component
(src/src/index.ts of react-native-spotlight-tour) and proofs about its
geometry, placement, defaulting, backdrop and lifecycle behaviour.

Numbers are modelled as rationals (the arithmetic involved is exact
decimal arithmetic, faithfully represented by ℚ); JavaScript
`Math.round` is half-up rounding, which coincides with Mathlib's
`round` on ℚ.
-/

namespace SpotlightTour

/-- JavaScript `Math.round`: rounds to the nearest integer, halves toward
positive infinity, returned as a number (here: an integer-valued rational). -/
def mathRound (q : ℚ) : ℚ := ((round q : ℤ) : ℚ)

/-- A rational is integer-valued (its reduced denominator is 1). -/
def isIntegral (q : ℚ) : Prop := q.den = 1

instance (q : ℚ) : Decidable (isIntegral q) := by
  unfold isIntegral; infer_instance

/-- React Native `LayoutRectangle`: an axis-aligned screen rectangle. -/
structure LayoutRectangle where
  x : ℚ
  y : ℚ
  width : ℚ
  height : ℚ
deriving DecidableEq

/-- Modelled from the spec: `Shape` enum of SpotlightTour.context (the
context module is not under src/); variants SPOTLIGHT (circle) and
RECTANGLE. -/
inductive Shape
  | SPOTLIGHT
  | RECTANGLE
deriving DecidableEq

/-- Modelled from the spec: `Align` enum of SpotlightTour.context;
variants SPOT and CENTER. -/
inductive Align
  | SPOT
  | CENTER
deriving DecidableEq

/-- Modelled from the spec: `Position` enum of SpotlightTour.context;
variants TOP, BOTTOM, LEFT, RIGHT. -/
inductive Position
  | TOP
  | BOTTOM
  | LEFT
  | RIGHT
deriving DecidableEq

/-- Modelled from the spec: `Motion` enum of SpotlightTour.context;
variants SLIDING and FADING. -/
inductive Motion
  | SLIDING
  | FADING
deriving DecidableEq

/-- Shape properties of a step; every field is optional in TypeScript, an
absent field is `none`. -/
structure ShapeProperties where
  borderWidth : Option ℚ
  horizontalRadius : Option ℚ
  verticalRadius : Option ℚ
deriving DecidableEq

/-- The module-level fallback object `shapeProperties` (index.ts lines
36-40): all three members present with value 0. -/
def shapePropertiesDefault : ShapeProperties :=
  ⟨some 0, some 0, some 0⟩

/-- One tour step as far as the overlay reads it.  `position` is required
in TypeScript, but a numeric enum value outside the four variants can be
supplied at runtime; `none` models such an out-of-enumeration value
(relevant to the precondition claim).  `render` is a capability of the
presentation layer and is not part of the data. -/
structure TourStep where
  position : Option Position
  shape : Option Shape
  alignTo : Option Align
  motion : Option Motion
  shapeProperties : Option ShapeProperties
deriving DecidableEq

/-- Resolution of `tourStep.shape ?? Shape.SPOTLIGHT` (line 61). -/
def resolvedShape (step : TourStep) : Shape :=
  step.shape.getD Shape.SPOTLIGHT

/-- Resolution of `tourStep.motion ?? Motion.SLIDING` (line 77). -/
def resolvedMotion (step : TourStep) : Motion :=
  step.motion.getD Motion.SLIDING

/-- Resolution of `tourStep.alignTo ?? Align.SPOT` (lines 104 and 139). -/
def resolvedAlign (step : TourStep) : Align :=
  step.alignTo.getD Align.SPOT

/-- Destructuring `{borderWidth = 0, horizontalRadius = 0, verticalRadius
= 0} = tourStep.shapeProperties ?? shapeProperties` (lines 62-66): the
fallback object is used when the step has none, and each missing member
defaults to 0.  Returns (borderWidth, horizontalRadius, verticalRadius). -/
def resolvedShapeValues (step : TourStep) : ℚ × ℚ × ℚ :=
  let sp := step.shapeProperties.getD shapePropertiesDefault
  (sp.borderWidth.getD 0, sp.horizontalRadius.getD 0, sp.verticalRadius.getD 0)

/-- Spotlight radius `r = (Math.max(spot.width, spot.height) / 2) * 1.15`
(line 68). -/
def r (spot : LayoutRectangle) : ℚ :=
  max spot.width spot.height / 2 * 1.15

/-- Spotlight center x `cx = spot.x + (spot.width / 2)` (line 69). -/
def cx (spot : LayoutRectangle) : ℚ :=
  spot.x + spot.width / 2

/-- Spotlight center y `cy = spot.y + (spot.height / 2)` (line 70). -/
def cy (spot : LayoutRectangle) : ℚ :=
  spot.y + spot.height / 2

/-- `rectWidth = spot.width + 2 * borderWidth` (line 72). -/
def rectWidth (spot : LayoutRectangle) (borderWidth : ℚ) : ℚ :=
  spot.width + 2 * borderWidth

/-- `rectHeight = spot.height + 2 * borderWidth` (line 73). -/
def rectHeight (spot : LayoutRectangle) (borderWidth : ℚ) : ℚ :=
  spot.height + 2 * borderWidth

/-- `rectX = spot.x - borderWidth` (line 74). -/
def rectX (spot : LayoutRectangle) (borderWidth : ℚ) : ℚ :=
  spot.x - borderWidth

/-- `rectY = spot.y - borderWidth` (line 75). -/
def rectY (spot : LayoutRectangle) (borderWidth : ℚ) : ℚ :=
  spot.y - borderWidth

/-- A margin value in a React Native style: either a percentage string
such as `"2%"` or a plain number of units. -/
inductive MarginValue
  | percent (q : ℚ)
  | units (q : ℚ)
deriving DecidableEq

/-- The tip placement style produced by `getSpotlightTipStyles` /
`getRectangleTipStyles`: absolute `left` and `top`, plus at most one
margin field depending on the position branch. -/
structure TipStyle where
  left : ℚ
  top : ℚ
  marginTop : Option MarginValue
  marginBottom : Option MarginValue
  marginLeft : Option MarginValue
  marginRight : Option MarginValue
deriving DecidableEq

/-- `getSpotlightTipStyles` (lines 102-135).  `vw100` stands for
`vwDP(100)`; the helper `vwDP` lives outside src/ and is modelled from
the spec as the viewport width `W`.  The switch has no default branch, so
a position outside the four enumerated values (modelled `none`) yields
`undefined` (here `none`). -/
def getSpotlightTipStyles (spot : LayoutRectangle) (step : TourStep)
    (vw100 : ℚ) (tipLayout : LayoutRectangle) : Option TipStyle :=
  match step.position with
  | some .BOTTOM => some
      { left := if step.alignTo.getD Align.SPOT = Align.SPOT
          then mathRound (cx spot - tipLayout.width / 2)
          else mathRound ((vw100 - tipLayout.width) / 2),
        top := mathRound (cy spot + r spot),
        marginTop := some (.percent 2),
        marginBottom := none, marginLeft := none, marginRight := none }
  | some .TOP => some
      { left := if step.alignTo.getD Align.SPOT = Align.SPOT
          then mathRound (cx spot - tipLayout.width / 2)
          else mathRound ((vw100 - tipLayout.width) / 2),
        top := mathRound (cy spot - r spot - tipLayout.height),
        marginTop := none,
        marginBottom := some (.percent 2), marginLeft := none,
        marginRight := none }
  | some .LEFT => some
      { left := mathRound (cx spot - r spot - tipLayout.width),
        top := mathRound (cy spot - tipLayout.height / 2),
        marginTop := none, marginBottom := none, marginLeft := none,
        marginRight := some (.percent 2) }
  | some .RIGHT => some
      { left := mathRound (cx spot + r spot),
        top := mathRound (cy spot - tipLayout.height / 2),
        marginTop := none, marginBottom := none,
        marginLeft := some (.percent 2), marginRight := none }
  | none => none

/-- The x component of the local `center` of `getRectangleTipStyles`
(lines 141-144): the rectangle mask's center, rounded before use. -/
def rectCenterX (spot : LayoutRectangle) (borderWidth : ℚ) : ℚ :=
  mathRound (rectX spot borderWidth + rectWidth spot borderWidth / 2)

/-- The y component of the local `center` of `getRectangleTipStyles`
(lines 141-144). -/
def rectCenterY (spot : LayoutRectangle) (borderWidth : ℚ) : ℚ :=
  mathRound (rectY spot borderWidth + rectHeight spot borderWidth / 2)

/-- `getRectangleTipStyles` (lines 137-175), with `tipMargin = 10` and
`vw100` standing for `vwDP(100)` as above. -/
def getRectangleTipStyles (spot : LayoutRectangle) (borderWidth : ℚ)
    (step : TourStep) (vw100 : ℚ) (tipLayout : LayoutRectangle) :
    Option TipStyle :=
  match step.position with
  | some .BOTTOM => some
      { left := if step.alignTo.getD Align.SPOT = Align.SPOT
          then mathRound (rectCenterX spot borderWidth - tipLayout.width / 2)
          else mathRound ((vw100 - tipLayout.width) / 2),
        top := mathRound (rectY spot borderWidth + rectHeight spot borderWidth),
        marginTop := some (.units 10),
        marginBottom := none, marginLeft := none, marginRight := none }
  | some .TOP => some
      { left := if step.alignTo.getD Align.SPOT = Align.SPOT
          then mathRound (rectCenterX spot borderWidth - tipLayout.width / 2)
          else mathRound ((vw100 - tipLayout.width) / 2),
        top := mathRound (rectY spot borderWidth - tipLayout.height - 10),
        marginTop := none,
        marginBottom := some (.units 10), marginLeft := none,
        marginRight := none }
  | some .LEFT => some
      { left := mathRound (rectX spot borderWidth - tipLayout.width),
        top := mathRound (rectCenterY spot borderWidth - tipLayout.height / 2),
        marginTop := none, marginBottom := none, marginLeft := none,
        marginRight := some (.units 10) }
  | some .RIGHT => some
      { left := mathRound (rectX spot borderWidth + rectWidth spot borderWidth),
        top := mathRound (rectCenterY spot borderWidth - tipLayout.height / 2),
        marginTop := none, marginBottom := none,
        marginLeft := some (.units 10), marginRight := none }
  | none => none

/-- The geometry of the mask element (line 89-92) in its settled state:
under SLIDING motion the animated values spring toward exactly these
targets (lines 186-215), under FADING they are set directly. -/
inductive MaskGeometry
  | circle (r cx cy : ℚ)
  | rect (x y width height rx ry : ℚ)
deriving DecidableEq

/-- The mask element selected by `shape` (lines 89-92): a circle with the
spotlight geometry, or a rect at `(rectX, rectY)` of size
`rectWidth × rectHeight` with corner radii `rx = horizontalRadius`,
`ry = verticalRadius`. -/
def maskElement (shape : Shape) (spot : LayoutRectangle)
    (borderWidth horizontalRadius verticalRadius : ℚ) : MaskGeometry :=
  match shape with
  | .SPOTLIGHT => .circle (r spot) (cx spot) (cy spot)
  | .RECTANGLE => .rect (rectX spot borderWidth) (rectY spot borderWidth)
      (rectWidth spot borderWidth) (rectHeight spot borderWidth)
      horizontalRadius verticalRadius

/-- The slice of `SpotlightTourCtx` the overlay destructures (line 46):
`current` and `spot` may be undefined; the navigation callbacks are
capabilities of the presentation layer and carry no data. -/
structure SpotlightTourCtx where
  current : Option ℕ
  spot : Option LayoutRectangle
  steps : List TourStep
deriving DecidableEq

/-- The props the step's `render` function receives (lines 283-290),
minus the navigation callbacks. -/
structure RenderProps where
  current : ℕ
  isFirst : Bool
  isLast : Bool
deriving DecidableEq

/-- What the overlay hands to the presentation layer when it renders:
the mask geometry and the props of the invoked step render. -/
structure RenderedOverlay where
  mask : MaskGeometry
  renderProps : RenderProps
deriving DecidableEq

/-- The `TourOverlay` render function (lines 44-296), restricted to the
data it delivers: `null` (here `none`) when `spot` is undefined or
`current` is undefined (lines 50-52); otherwise the mask geometry for
`steps[current]` and the render props.  An out-of-range `current` would
make `steps[current]` undefined and the subsequent property access throw,
so it also produces no rendered overlay. -/
def tourOverlay (tour : SpotlightTourCtx) : Option RenderedOverlay :=
  match tour.spot, tour.current with
  | some spot, some current =>
    match tour.steps.get? current with
    | some tourStep =>
      let (borderWidth, horizontalRadius, verticalRadius) :=
        resolvedShapeValues tourStep
      some
        { mask := maskElement (resolvedShape tourStep) spot borderWidth
            horizontalRadius verticalRadius,
          renderProps :=
            { current := current,
              isFirst := current == 0,
              isLast := (current : ℤ) == (tour.steps.length : ℤ) - 1 } }
    | none => none
  | _, _ => none

/-- Whether the current index is the last one:
`current === steps.length - 1` (line 48), with JavaScript number
subtraction (so an empty list gives last index -1). -/
def isLastStep (current : ℕ) (stepsLength : ℕ) : Bool :=
  (current : ℤ) == (stepsLength : ℤ) - 1

/-- The action a backdrop press performs. -/
inductive BackdropAction
  | noop
  | stopTour
  | nextStep
deriving DecidableEq

/-- `backdropPressHandler` (lines 94-100): no-op unless
`shouldContinueOnBackdropPress`; then `stop()` on the last step and
`next()` otherwise. -/
def backdropPressHandler (shouldContinueOnBackdropPress : Bool)
    (current stepsLength : ℕ) : BackdropAction :=
  if !shouldContinueOnBackdropPress then .noop
  else if isLastStep current stepsLength then .stopTour
  else .nextStep

/-- How a promise settles. -/
inductive PromiseOutcome
  | resolved
  | rejected
deriving DecidableEq

/-- `hideTip` (lines 231-245) as the map from the fade-out animation's
completion payload (`finished : Bool`; `false` when the animation was
cancelled by a superseding animation or `stop()`) to the settlement of
the promise it returns: `finished ? resolve() : reject()`. -/
def hideTip (finished : Bool) : PromiseOutcome :=
  if finished then .resolved else .rejected

/-- Rounding to the nearest integer always yields an integer-valued
rational. -/
theorem isIntegral_mathRound (q : ℚ) : isIntegral (mathRound q) := by
  unfold isIntegral mathRound
  exact Rat.den_intCast _

/-- C1: for every spot rectangle with width ≥ 0 and height ≥ 0, the
spotlight circle geometry computed by the overlay is
r = max(spot.width, spot.height) / 2 * 1.15 and
center = (spot.x + spot.width/2, spot.y + spot.height/2). -/
theorem C1_spotlight_geometry (spot : LayoutRectangle)
    (_hw : 0 ≤ spot.width) (_hh : 0 ≤ spot.height) :
    r spot = max spot.width spot.height / 2 * 1.15 ∧
    cx spot = spot.x + spot.width / 2 ∧
    cy spot = spot.y + spot.height / 2 :=
  ⟨rfl, rfl, rfl⟩

/-- Witness for C1 at the concrete spot (100, 200, 50, 50). -/
theorem C1_spotlight_geometry_witness :
    r ⟨100, 200, 50, 50⟩ = max (50 : ℚ) 50 / 2 * 1.15 ∧
    cx ⟨100, 200, 50, 50⟩ = 100 + 50 / 2 ∧
    cy ⟨100, 200, 50, 50⟩ = 200 + 50 / 2 :=
  C1_spotlight_geometry ⟨100, 200, 50, 50⟩ (by norm_num) (by norm_num)

/-- C2: for every spot rectangle and borderWidth, the rectangle-shape
mask geometry is rectWidth = spot.width + 2*borderWidth,
rectHeight = spot.height + 2*borderWidth, rectX = spot.x - borderWidth,
rectY = spot.y - borderWidth, and the corner radii are passed through to
the rendered mask unchanged. -/
theorem C2_rectangle_mask_geometry (spot : LayoutRectangle)
    (borderWidth horizontalRadius verticalRadius : ℚ) :
    rectWidth spot borderWidth = spot.width + 2 * borderWidth ∧
    rectHeight spot borderWidth = spot.height + 2 * borderWidth ∧
    rectX spot borderWidth = spot.x - borderWidth ∧
    rectY spot borderWidth = spot.y - borderWidth ∧
    maskElement Shape.RECTANGLE spot borderWidth horizontalRadius verticalRadius
      = MaskGeometry.rect (spot.x - borderWidth) (spot.y - borderWidth)
          (spot.width + 2 * borderWidth) (spot.height + 2 * borderWidth)
          horizontalRadius verticalRadius :=
  ⟨rfl, rfl, rfl, rfl, rfl⟩

/-- C3: the spotlight-policy placement follows the four-row table (with
a 2% margin on the position side), and on the concrete instance
spot = (100, 200, 50, 50), BOTTOM, SPOT, tip 120 × 40, viewport width
360 it yields r = 28.75, center = (125, 225), left = 65 and
pre-rounding top = 253.75. -/
theorem C3_spotlight_placement (spot tip : LayoutRectangle) (W : ℚ)
    (a : Align) (sh : Option Shape) (al : Option Align)
    (mo : Option Motion) (sp : Option ShapeProperties) :
    (getSpotlightTipStyles spot ⟨some .BOTTOM, sh, some a, mo, sp⟩ W tip =
      some ⟨if a = Align.SPOT then mathRound (cx spot - tip.width / 2)
              else mathRound ((W - tip.width) / 2),
            mathRound (cy spot + r spot),
            some (.percent 2), none, none, none⟩) ∧
    (getSpotlightTipStyles spot ⟨some .TOP, sh, some a, mo, sp⟩ W tip =
      some ⟨if a = Align.SPOT then mathRound (cx spot - tip.width / 2)
              else mathRound ((W - tip.width) / 2),
            mathRound (cy spot - r spot - tip.height),
            none, some (.percent 2), none, none⟩) ∧
    (getSpotlightTipStyles spot ⟨some .LEFT, sh, al, mo, sp⟩ W tip =
      some ⟨mathRound (cx spot - r spot - tip.width),
            mathRound (cy spot - tip.height / 2),
            none, none, none, some (.percent 2)⟩) ∧
    (getSpotlightTipStyles spot ⟨some .RIGHT, sh, al, mo, sp⟩ W tip =
      some ⟨mathRound (cx spot + r spot),
            mathRound (cy spot - tip.height / 2),
            none, none, some (.percent 2), none⟩) ∧
    r ⟨100, 200, 50, 50⟩ = 28.75 ∧
    cx ⟨100, 200, 50, 50⟩ = 125 ∧
    cy ⟨100, 200, 50, 50⟩ = 225 ∧
    cy ⟨100, 200, 50, 50⟩ + r ⟨100, 200, 50, 50⟩ = 253.75 ∧
    getSpotlightTipStyles ⟨100, 200, 50, 50⟩
        ⟨some .BOTTOM, none, some .SPOT, none, none⟩ 360 ⟨0, 0, 120, 40⟩ =
      some ⟨65, 254, some (.percent 2), none, none, none⟩ :=
  ⟨rfl, rfl, rfl, rfl, by norm_num [r], by norm_num [cx], by norm_num [cy],
    by norm_num [cy, r],
    by norm_num [getSpotlightTipStyles, mathRound, cx, cy, r, round_eq]⟩

/-- C4: the rectangle-policy placement follows the four-row table with a
fixed 10-unit margin, where rectCenter is the rounded center of the mask
rectangle computed by the code. -/
theorem C4_rectangle_placement (spot tip : LayoutRectangle)
    (borderWidth W : ℚ) (a : Align) (sh : Option Shape) (al : Option Align)
    (mo : Option Motion) (sp : Option ShapeProperties) :
    (getRectangleTipStyles spot borderWidth ⟨some .BOTTOM, sh, some a, mo, sp⟩ W tip =
      some ⟨if a = Align.SPOT
              then mathRound (rectCenterX spot borderWidth - tip.width / 2)
              else mathRound ((W - tip.width) / 2),
            mathRound (rectY spot borderWidth + rectHeight spot borderWidth),
            some (.units 10), none, none, none⟩) ∧
    (getRectangleTipStyles spot borderWidth ⟨some .TOP, sh, some a, mo, sp⟩ W tip =
      some ⟨if a = Align.SPOT
              then mathRound (rectCenterX spot borderWidth - tip.width / 2)
              else mathRound ((W - tip.width) / 2),
            mathRound (rectY spot borderWidth - tip.height - 10),
            none, some (.units 10), none, none⟩) ∧
    (getRectangleTipStyles spot borderWidth ⟨some .LEFT, sh, al, mo, sp⟩ W tip =
      some ⟨mathRound (rectX spot borderWidth - tip.width),
            mathRound (rectCenterY spot borderWidth - tip.height / 2),
            none, none, none, some (.units 10)⟩) ∧
    (getRectangleTipStyles spot borderWidth ⟨some .RIGHT, sh, al, mo, sp⟩ W tip =
      some ⟨mathRound (rectX spot borderWidth + rectWidth spot borderWidth),
            mathRound (rectCenterY spot borderWidth - tip.height / 2),
            none, none, some (.units 10), none⟩) :=
  ⟨rfl, rfl, rfl, rfl⟩

/-- Integrality of a rational is equivalent to being an integer cast. -/
theorem isIntegral_iff (q : ℚ) : isIntegral q ↔ ∃ z : ℤ, q = (z : ℚ) := by
  unfold isIntegral
  rw [Rat.den_eq_one_iff]
  exact ⟨fun h => ⟨q.num, h.symm⟩, fun ⟨z, hz⟩ => by rw [hz]; rfl⟩

/-- Every style the spotlight policy produces has integer-valued left
and top (both go through Math.round). -/
theorem spotlight_tip_integral (spot tip : LayoutRectangle)
    (step : TourStep) (W : ℚ) (st : TipStyle)
    (h : getSpotlightTipStyles spot step W tip = some st) :
    isIntegral st.left ∧ isIntegral st.top := by
  rcases step with ⟨pos, sh, al, mo, sp⟩
  rcases pos with _ | p
  · simp [getSpotlightTipStyles] at h
  · cases p <;>
      (simp only [getSpotlightTipStyles, Option.some.injEq] at h
       subst h
       constructor <;>
         first
           | exact isIntegral_mathRound _
           | (dsimp only; split <;> exact isIntegral_mathRound _))

/-- Every style the rectangle policy produces has integer-valued left
and top (both go through Math.round). -/
theorem rectangle_tip_integral (spot tip : LayoutRectangle)
    (step : TourStep) (borderWidth W : ℚ) (st : TipStyle)
    (h : getRectangleTipStyles spot borderWidth step W tip = some st) :
    isIntegral st.left ∧ isIntegral st.top := by
  rcases step with ⟨pos, sh, al, mo, sp⟩
  rcases pos with _ | p
  · simp [getRectangleTipStyles] at h
  · cases p <;>
      (simp only [getRectangleTipStyles, Option.some.injEq] at h
       subst h
       constructor <;>
         first
           | exact isIntegral_mathRound _
           | (dsimp only; split <;> exact isIntegral_mathRound _))

/-- C5 counterexample: the spotlight radius delivered to the mask for the
50 × 50 spot at (100, 200) is 115/4 = 28.75, which is not an integer, so
not every coordinate handed to the presentation layer is rounded. -/
theorem C5_counterexample :
    r ⟨100, 200, 50, 50⟩ = 115 / 4 ∧ ¬ isIntegral (r ⟨100, 200, 50, 50⟩) := by
  have hr : r ⟨100, 200, 50, 50⟩ = 115 / 4 := by norm_num [r]
  refine ⟨hr, ?_⟩
  rw [hr, isIntegral_iff]
  rintro ⟨z, hz⟩
  have h4 : ((4 * z : ℤ) : ℚ) = 115 := by push_cast; linarith
  have h5 : (4 * z : ℤ) = 115 := by exact_mod_cast h4
  omega

/-- C5 (amended): the left and top values produced by both placement
policies are integers; the mask geometry itself is delivered unrounded. -/
theorem C5_tip_coordinates_integral (spot tip : LayoutRectangle)
    (step : TourStep) (W borderWidth : ℚ) (stS stR : TipStyle)
    (hS : getSpotlightTipStyles spot step W tip = some stS)
    (hR : getRectangleTipStyles spot borderWidth step W tip = some stR) :
    (isIntegral stS.left ∧ isIntegral stS.top) ∧
    (isIntegral stR.left ∧ isIntegral stR.top) :=
  ⟨spotlight_tip_integral spot tip step W stS hS,
   rectangle_tip_integral spot tip step borderWidth W stR hR⟩

/-- Witness for C5 (amended) at the concrete BOTTOM/SPOT instance. -/
theorem C5_tip_coordinates_integral_witness :
    (isIntegral (65 : ℚ) ∧ isIntegral (254 : ℚ)) ∧
    (isIntegral (65 : ℚ) ∧ isIntegral (250 : ℚ)) :=
  C5_tip_coordinates_integral ⟨100, 200, 50, 50⟩ ⟨0, 0, 120, 40⟩
    ⟨some .BOTTOM, none, some .SPOT, none, none⟩ 360 0
    ⟨65, 254, some (.percent 2), none, none, none⟩
    ⟨65, 250, some (.units 10), none, none, none⟩
    (by norm_num [getSpotlightTipStyles, mathRound, cx, cy, r, round_eq])
    (by norm_num [getRectangleTipStyles, mathRound, rectCenterX, rectX,
      rectY, rectWidth, rectHeight, round_eq])

/-- C6: a backdrop press is a no-op when shouldContinueOnBackdropPress is
false; when it is true it stops the tour on the last index
(steps.length - 1) and advances otherwise. -/
theorem C6_backdrop_press (current stepsLength : ℕ) :
    backdropPressHandler false current stepsLength = .noop ∧
    ((current : ℤ) = (stepsLength : ℤ) - 1 →
      backdropPressHandler true current stepsLength = .stopTour) ∧
    ((current : ℤ) ≠ (stepsLength : ℤ) - 1 →
      backdropPressHandler true current stepsLength = .nextStep) := by
  refine ⟨rfl, fun h => ?_, fun h => ?_⟩ <;>
    simp [backdropPressHandler, isLastStep, h]

/-- Witness for C6 at current = 1 of 2 steps (the last index). -/
theorem C6_backdrop_press_witness :
    backdropPressHandler false 1 2 = BackdropAction.noop ∧
    backdropPressHandler true 1 2 = BackdropAction.stopTour :=
  ⟨(C6_backdrop_press 1 2).1, (C6_backdrop_press 1 2).2.1 (by norm_num)⟩

/-- C7 counterexample: when the fade-out animation ends without
finishing, the promise returned by hideTip rejects, so cancellation is
surfaced as a failure to the caller. -/
theorem C7_counterexample : hideTip false = PromiseOutcome.rejected := rfl

/-- C7 (amended): hideTip's promise resolves exactly when the fade-out
animation finishes and rejects when it ends without finishing (i.e. when
it was cancelled); cancellation is surfaced as a rejection. -/
theorem C7_hideTip_settlement :
    hideTip true = PromiseOutcome.resolved ∧
    hideTip false = PromiseOutcome.rejected :=
  ⟨rfl, rfl⟩

/-- C8: for each of the four enumerated positions, both placement
policies return a defined style; for a position value outside the
enumeration, both return undefined. -/
theorem C8_position_precondition (spot tip : LayoutRectangle)
    (W borderWidth : ℚ) (sh : Option Shape) (al : Option Align)
    (mo : Option Motion) (sp : Option ShapeProperties) :
    (∀ p : Position,
      (getSpotlightTipStyles spot ⟨some p, sh, al, mo, sp⟩ W tip).isSome = true ∧
      (getRectangleTipStyles spot borderWidth ⟨some p, sh, al, mo, sp⟩ W tip).isSome = true) ∧
    getSpotlightTipStyles spot ⟨none, sh, al, mo, sp⟩ W tip = none ∧
    getRectangleTipStyles spot borderWidth ⟨none, sh, al, mo, sp⟩ W tip = none := by
  refine ⟨fun p => ?_, rfl, rfl⟩
  cases p <;> exact ⟨rfl, rfl⟩

/-- C9: omitted step attributes default to SPOTLIGHT, SPOT, SLIDING and
all-zero shape properties; explicitly supplied values are used as given.
The SPOT default is also what both placement policies apply when alignTo
is absent. -/
theorem C9_step_defaults :
    (∀ p, resolvedShape ⟨p, none, none, none, none⟩ = Shape.SPOTLIGHT) ∧
    (∀ p, resolvedAlign ⟨p, none, none, none, none⟩ = Align.SPOT) ∧
    (∀ p, resolvedMotion ⟨p, none, none, none, none⟩ = Motion.SLIDING) ∧
    (∀ p, resolvedShapeValues ⟨p, none, none, none, none⟩ = (0, 0, 0)) ∧
    (∀ p s a m props, resolvedShape ⟨p, some s, a, m, props⟩ = s) ∧
    (∀ p s a m props, resolvedAlign ⟨p, s, some a, m, props⟩ = a) ∧
    (∀ p s a m props, resolvedMotion ⟨p, s, a, some m, props⟩ = m) ∧
    (∀ p s a m bw hr vr,
      resolvedShapeValues ⟨p, s, a, m, some ⟨some bw, some hr, some vr⟩⟩ =
        (bw, hr, vr)) ∧
    (∀ spot tip W p sh mo props,
      getSpotlightTipStyles spot ⟨some p, sh, none, mo, props⟩ W tip =
        getSpotlightTipStyles spot ⟨some p, sh, some Align.SPOT, mo, props⟩ W tip) ∧
    (∀ spot tip W borderWidth p sh mo props,
      getRectangleTipStyles spot borderWidth ⟨some p, sh, none, mo, props⟩ W tip =
        getRectangleTipStyles spot borderWidth ⟨some p, sh, some Align.SPOT, mo, props⟩ W tip) :=
  ⟨fun _ => rfl, fun _ => rfl, fun _ => rfl, fun _ => rfl,
   fun _ _ _ _ _ => rfl, fun _ _ _ _ _ => rfl, fun _ _ _ _ _ => rfl,
   fun _ _ _ _ _ _ _ => rfl,
   fun _ _ _ p _ _ _ => by cases p <;> rfl,
   fun _ _ _ _ p _ _ _ => by cases p <;> rfl⟩

/-- C10: whenever the tour state has spot undefined or current undefined,
the overlay renders nothing. -/
theorem C10_missing_state_renders_nothing (tour : SpotlightTourCtx)
    (h : tour.spot = none ∨ tour.current = none) :
    tourOverlay tour = none := by
  rcases tour with ⟨cur, sp, steps⟩
  cases cur <;> cases sp <;> simp_all [tourOverlay]

/-- Witness for C10: a tour with a measured spot but no current index
renders nothing. -/
theorem C10_missing_state_renders_nothing_witness :
    tourOverlay ⟨none, some ⟨0, 0, 10, 10⟩, []⟩ = none :=
  C10_missing_state_renders_nothing ⟨none, some ⟨0, 0, 10, 10⟩, []⟩
    (Or.inr rfl)

end SpotlightTour
